import Mathlib

/-!
Shallow embedding of the actix-diesel-crud service (src/main.rs, src/handler.rs,
src/models.rs, src/user_error.rs).

The database table `users` is modelled as a list of rows together with the
auto-increment counter backing the serial surrogate key `id`.  The random
public identifier produced by `Uuid::new_v4()` and the clock reading produced
by `Local::now().naive_local()` are inputs of the model, since they are
environment effects.  A panic (`expect`) inside the worker closure is caught
at the `web::block` boundary: the panicked blocking task surfaces as
`Err(BlockingError)` from `web::block(..).await`, exactly like a failure to
schedule the closure, so the handlers' `map_err(|_| ...)` turns both into an
error response.  Scheduling failure and a storage-layer error raised by a SQL
statement are modelled by an environment record threaded into each handler.
-/

namespace ActixDieselCrud

/-- A persisted user row, as loaded by `load::<models::User>` (src/models.rs,
struct `User`): surrogate serial key `id`, 128-bit public identifier
`user_id` (a UUID, modelled as its numeric value), three text fields and the
creation timestamp (modelled as an integer clock value). -/
structure User where
  id : Int
  user_id : Nat
  first_name : String
  last_name : String
  email : String
  created_at : Int
deriving Repr, DecidableEq

/-- The insertable row shape (src/models.rs, struct `Users`): identical to
`User` except that the surrogate key is optional, letting storage assign it
when `none` is supplied. -/
structure Users where
  id : Option Int
  user_id : Nat
  first_name : String
  last_name : String
  email : String
  created_at : Int
deriving Repr, DecidableEq

/-- The `users` table: its rows in table order, plus the next value of the
serial surrogate-key sequence. -/
structure Db where
  rows : List User
  next_id : Int
deriving Repr, DecidableEq

/-- The create-request body (src/models.rs, struct `NewUser`). -/
structure NewUser where
  first_name : String
  last_name : String
  email : String
deriving Repr, DecidableEq

/-- The update-request body (src/models.rs, struct `UpdateUser`): all three
fields optional; it doubles as the diesel `AsChangeset`, where a `none` field
is left untouched by `set`. -/
structure UpdateUser where
  first_name : Option String
  last_name : Option String
  email : Option String
deriving Repr, DecidableEq

/-- The success envelope (src/models.rs, struct `GenericResponse`): `data` is
`none` when the payload is absent (serialized as JSON null). -/
structure GenericResponse where
  status : String
  message : String
  data : Option (List User)
deriving Repr, DecidableEq

/-- A response body: either a bare JSON string (the error paths serialize
`self.to_string()`) or a serialized `GenericResponse` envelope. -/
inductive RespBody where
  | jsonString : String → RespBody
  | jsonEnvelope : GenericResponse → RespBody
deriving Repr, DecidableEq

/-- An HTTP response: numeric status code and body. -/
structure HttpResponse where
  status : Nat
  body : RespBody
deriving Repr, DecidableEq

/-- The error enum (src/user_error.rs, enum `UserError`); the wrapped diesel
error is modelled by its display text. -/
inductive UserError where
  | NotFound
  | AddingUser
  | UpdatingUser
  | DeletingUser
  | DieselError : String → UserError
deriving Repr, DecidableEq

/-- The `Display` impl for `UserError` (src/user_error.rs, `fmt`). -/
def UserError.fmt : UserError → String
  | .NotFound => "User not found"
  | .AddingUser => "Error adding user"
  | .UpdatingUser => "Error updating user"
  | .DeletingUser => "Error deleting user"
  | .DieselError diesel_error => "Diesel error: " ++ diesel_error

/-- The `ResponseError` impl for `UserError` (src/user_error.rs,
`error_response`): `NotFound` becomes 404, everything else 500, the body in
both cases being the JSON of the display string. -/
def UserError.error_response (e : UserError) : HttpResponse :=
  match e with
  | .NotFound => { status := 404, body := .jsonString UserError.NotFound.fmt }
  | _ => { status := 500, body := .jsonString e.fmt }

/-- Environment effects of one request: whether `web::block` could schedule
the closure on the worker pool, whether `pool.get()` yields a connection, and
whether the SQL statements fail (`some e` makes the first executed statement
fail with diesel error text `e`). -/
structure Env where
  dispatchOk : Bool
  poolOk : Bool
  dieselErr : Option String
deriving Repr, DecidableEq

/-- Outcome of the worker closure passed to `web::block`: the Rust closure
returns `Result<Vec<User>, diesel::result::Error>`, and it can also panic
(`expect` on pool acquisition or on UUID parsing). -/
inductive ClosureResult (α : Type) where
  | ok : α → ClosureResult α
  | err : String → ClosureResult α
  | crashed : String → ClosureResult α
deriving Repr, DecidableEq

/-- Outcome of one request as seen from outside: an HTTP response, or a crash
of the request (an uncaught panic).  The four handlers never produce the
crash outcome — a worker-closure panic is caught at the `web::block`
boundary — but the constructor keeps that fact statable. -/
inductive RequestOutcome where
  | response : HttpResponse → RequestOutcome
  | crash : String → RequestOutcome
deriving Repr, DecidableEq

/-- The numeric value of a run of hex digits; any non-hex character rejects
the whole run. -/
def hexDigitsVal? (ds : List Char) : Option Nat :=
  ds.foldl
    (fun acc c =>
      match acc with
      | none => none
      | some n =>
        if '0' ≤ c ∧ c ≤ '9' then some (16 * n + (c.toNat - '0'.toNat))
        else if 'a' ≤ c ∧ c ≤ 'f' then some (16 * n + (c.toNat - 'a'.toNat + 10))
        else if 'A' ≤ c ∧ c ≤ 'F' then some (16 * n + (c.toNat - 'A'.toNat + 10))
        else none)
    (some 0)

/-- The hyphenated 8-4-4-4-12 UUID format: 36 characters, hyphens at
positions 8, 13, 18 and 23, hex digits everywhere else. -/
def hyphenatedVal? (cs : List Char) : Option Nat :=
  if cs.length = 36 ∧ cs.getD 8 'x' = '-' ∧ cs.getD 13 'x' = '-' ∧
      cs.getD 18 'x' = '-' ∧ cs.getD 23 'x' = '-' then
    hexDigitsVal? ((cs.enum.filter
      (fun p => !(p.1 == 8 || p.1 == 13 || p.1 == 18 || p.1 == 23))).map (·.2))
  else none

/-- Models `uuid::Uuid::parse_str`, returning the 128-bit value: the simple
format (32 hex digits), the hyphenated format (8-4-4-4-12), the braced
format (38 characters, the hyphenated form between a brace pair) and the URN
format (45 characters, the prefix `urn:uuid:` before the hyphenated form).
Any other input is rejected. -/
def Uuid.parse_str (s : String) : Option Nat :=
  let cs := s.data
  if cs.length = 32 then hexDigitsVal? cs
  else if cs.length = 38 ∧ cs.getD 0 'x' = '\x7b' ∧ cs.getD 37 'x' = '\x7d' then
    hyphenatedVal? ((cs.drop 1).dropLast)
  else if cs.length = 45 ∧ cs.take 9 = "urn:uuid:".data then
    hyphenatedVal? (cs.drop 9)
  else hyphenatedVal? cs

/-- Models `users.order(id.desc()).limit(1).load::<models::User>`: the row
with the greatest surrogate key, or no row when the table is empty. -/
def maxById : List User → Option User
  | [] => none
  | u :: us =>
    match maxById us with
    | none => some u
    | some v => if v.id > u.id then some v else some u

/-- The re-read convention: `ORDER BY id DESC LIMIT 1` as a list of at most
one row. -/
def orderByIdDescLimit1 (rows : List User) : List User :=
  match maxById rows with
  | none => []
  | some u => [u]

/-- Models `diesel::insert_into(users).values(&new_user).execute`: storage
assigns the serial surrogate key when the insertable row carries none, and
the row is appended to the table. -/
def insertStmt (db : Db) (new_user : Users) : Db :=
  { rows := db.rows ++
      [{ id := new_user.id.getD db.next_id, user_id := new_user.user_id,
         first_name := new_user.first_name, last_name := new_user.last_name,
         email := new_user.email, created_at := new_user.created_at }],
    next_id := db.next_id + 1 }

/-- The diesel `AsChangeset` semantics of `UpdateUser`: a `some` field is
written, a `none` field is left unchanged. -/
def applyChangeset (c : UpdateUser) (u : User) : User :=
  { u with first_name := c.first_name.getD u.first_name,
           last_name := c.last_name.getD u.last_name,
           email := c.email.getD u.email }

/-- Models `diesel::update(users.filter(user_id.eq(uid))).set(&c).execute`:
every row whose public identifier equals `uid` receives the changeset. -/
def updateStmt (uid : Nat) (c : UpdateUser) (db : Db) : Db :=
  { db with rows := db.rows.map (fun u => if u.user_id = uid then applyChangeset c u else u) }

/-- Models `diesel::delete(users.filter(user_id.eq(uid))).execute`: every row
whose public identifier equals `uid` is removed. -/
def deleteStmt (uid : Nat) (db : Db) : Db :=
  { db with rows := db.rows.filter (fun u => u.user_id != uid) }

/-- The worker closure of `get_users` (src/handler.rs): acquire a pooled
connection (`expect` panics when the pool fails), then `users.load`. -/
def get_users_block (env : Env) (db : Db) : ClosureResult (List User) × Db :=
  if env.poolOk then
    match env.dieselErr with
    | some e => (.err e, db)
    | none => (.ok db.rows, db)
  else (.crashed "Error getting a connection from the pool", db)

/-- The worker closure of `add_user` (src/handler.rs): acquire a connection,
build the insertable row from the form plus the fresh UUID and the clock
reading, insert it, then re-read by surrogate key descending, limit one. -/
def add_user_block (env : Env) (form : NewUser) (freshUuid : Nat) (now : Int)
    (db : Db) : ClosureResult (List User) × Db :=
  if env.poolOk then
    let new_user : Users :=
      { id := none, user_id := freshUuid,
        first_name := form.first_name, last_name := form.last_name,
        email := form.email, created_at := now }
    match env.dieselErr with
    | some e => (.err e, db)
    | none =>
      let db2 := insertStmt db new_user
      (.ok (orderByIdDescLimit1 db2.rows), db2)
  else (.crashed "Error getting a connection from the pool", db)

/-- The worker closure of `update_user` (src/handler.rs): parse the path
identifier (`expect` panics on failure), acquire a connection, rebuild the
changeset with every field forced to `some` (an omitted field becomes the
empty string via `unwrap_or_default`), run the update, then re-read by
surrogate key descending, limit one. -/
def update_user_block (env : Env) (path : String) (form : UpdateUser)
    (db : Db) : ClosureResult (List User) × Db :=
  match Uuid.parse_str path with
  | none => (.crashed "Error parsing user_id", db)
  | some parsed_user_id =>
    if env.poolOk then
      let updated_user : UpdateUser :=
        { first_name := some (form.first_name.getD ""),
          last_name := some (form.last_name.getD ""),
          email := some (form.email.getD "") }
      match env.dieselErr with
      | some e => (.err e, db)
      | none =>
        let db2 := updateStmt parsed_user_id updated_user db
        (.ok (orderByIdDescLimit1 db2.rows), db2)
    else (.crashed "Error getting a connection from the pool", db)

/-- The worker closure of `delete_user` (src/handler.rs): parse the path
identifier (`expect` panics on failure), acquire a connection, delete the
matching rows, then re-read by surrogate key descending, limit one. -/
def delete_user_block (env : Env) (path : String) (db : Db) :
    ClosureResult (List User) × Db :=
  match Uuid.parse_str path with
  | none => (.crashed "Error parsing user_id", db)
  | some parsed_user_id =>
    if env.poolOk then
      match env.dieselErr with
      | some e => (.err e, db)
      | none =>
        let db2 := deleteStmt parsed_user_id db
        (.ok (orderByIdDescLimit1 db2.rows), db2)
    else (.crashed "Error getting a connection from the pool", db)

/-- The shared handler tail: `web::block(closure).await.map_err(|_| blockErr)?`
followed by the match wrapping success in the envelope and routing a diesel
error through `UserError::DieselError`.  `web::block` yields
`Err(BlockingError)` both when the closure could not be scheduled and when
it panicked — tokio catches the panic of a blocking task at its join
handle — so a dispatch failure and a closure panic alike surface as
`blockErr.error_response`. -/
def runUserHandler (env : Env) (blockErr : UserError) (okMessage : String)
    (block : Db → ClosureResult (List User) × Db) (db : Db) :
    RequestOutcome × Db :=
  if env.dispatchOk then
    match block db with
    | (.ok users_list, db2) =>
      (.response
        { status := 200,
          body := .jsonEnvelope
            { status := "OK", message := okMessage, data := some users_list } },
       db2)
    | (.err e, db2) => (.response (UserError.DieselError e).error_response, db2)
    | (.crashed _, db2) => (.response blockErr.error_response, db2)
  else (.response blockErr.error_response, db)

/-- GET / (src/handler.rs, `health_checker`): the fixed liveness envelope. -/
def health_checker : RequestOutcome :=
  .response
    { status := 200,
      body := .jsonEnvelope { status := "OK", message := "Working", data := none } }

/-- GET /get (src/handler.rs, `get_users`); a dispatch failure is mapped to
`UserError::NotFound`. -/
def get_users (env : Env) (db : Db) : RequestOutcome × Db :=
  runUserHandler env .NotFound "Users Fetched successfully" (get_users_block env) db

/-- POST /add (src/handler.rs, `add_user`); `freshUuid` and `now` are the
values produced by `Uuid::new_v4()` and `Local::now().naive_local()`; a
dispatch failure is mapped to `UserError::AddingUser`. -/
def add_user (env : Env) (form : NewUser) (freshUuid : Nat) (now : Int)
    (db : Db) : RequestOutcome × Db :=
  runUserHandler env .AddingUser "Users added successfully"
    (add_user_block env form freshUuid now) db

/-- POST /update/{id} (src/handler.rs, `update_user`); a dispatch failure is
mapped to `UserError::UpdatingUser`. -/
def update_user (env : Env) (path : String) (form : UpdateUser) (db : Db) :
    RequestOutcome × Db :=
  runUserHandler env .UpdatingUser "Users updated successfully"
    (update_user_block env path form) db

/-- GET /delete/{id} (src/handler.rs, `delete_user`); a dispatch failure is
mapped to `UserError::DeletingUser`. -/
def delete_user (env : Env) (path : String) (db : Db) : RequestOutcome × Db :=
  runUserHandler env .DeletingUser "Users Deleted successfully"
    (delete_user_block env path) db

/-- Abbreviation for the success response of the four table operations: a 200
with the `GenericResponse` envelope carrying status `"OK"`, the fixed message
and a present list payload. -/
def okListResponse (okMessage : String) (users_list : List User) : RequestOutcome :=
  .response
    { status := 200,
      body := .jsonEnvelope
        { status := "OK", message := okMessage, data := some users_list } }

/-- The projection of a row onto the fields the update operation must not
touch: surrogate key, public identifier, creation timestamp. -/
def rowKey (u : User) : Int × Nat × Int := (u.id, u.user_id, u.created_at)

/-- The re-read of the greatest surrogate key yields nothing exactly on the
empty table. -/
theorem maxById_eq_none (rows : List User) : maxById rows = none ↔ rows = [] := by
  cases rows with
  | nil => simp [maxById]
  | cons u us =>
    simp only [maxById]
    cases maxById us with
    | none => simp
    | some v =>
      by_cases h : v.id > u.id <;> simp [h]

/-- The re-read returns at most one row. -/
theorem orderByIdDescLimit1_length (rows : List User) :
    (orderByIdDescLimit1 rows).length ≤ 1 := by
  unfold orderByIdDescLimit1
  cases maxById rows <;> simp

/-- The re-read returns the empty list exactly when the table is empty. -/
theorem orderByIdDescLimit1_eq_nil (rows : List User) :
    orderByIdDescLimit1 rows = [] ↔ rows = [] := by
  unfold orderByIdDescLimit1
  cases h : maxById rows with
  | none => simpa using (maxById_eq_none rows).mp h
  | some v =>
    simp only [List.cons_ne_self]
    constructor
    · intro hc; exact absurd hc (by simp)
    · intro hc; subst hc; simp [maxById] at h

/-- Running `get_users` in the all-success environment: the whole table is
returned unchanged. -/
theorem get_users_run (db : Db) :
    get_users { dispatchOk := true, poolOk := true, dieselErr := none } db =
      (okListResponse "Users Fetched successfully" db.rows, db) := rfl

/-- Running `add_user` in the all-success environment: the new row carries
the fresh UUID, the clock reading, the form fields and the next serial key;
the response is the re-read of the grown table. -/
theorem add_user_run (form : NewUser) (freshUuid : Nat) (now : Int) (db : Db) :
    add_user { dispatchOk := true, poolOk := true, dieselErr := none }
        form freshUuid now db =
      (okListResponse "Users added successfully"
        (orderByIdDescLimit1 (db.rows ++
          [{ id := db.next_id, user_id := freshUuid, first_name := form.first_name,
             last_name := form.last_name, email := form.email, created_at := now }])),
       { rows := db.rows ++
           [{ id := db.next_id, user_id := freshUuid, first_name := form.first_name,
              last_name := form.last_name, email := form.email, created_at := now }],
         next_id := db.next_id + 1 }) := rfl

/-- Running `update_user` in the all-success environment on a parsable path:
every matching row gets all three fields overwritten (an omitted field
becomes the empty string); the response is the re-read of the new table. -/
theorem update_user_run (path : String) (form : UpdateUser) (db : Db) (uid : Nat)
    (hparse : Uuid.parse_str path = some uid) :
    update_user { dispatchOk := true, poolOk := true, dieselErr := none }
        path form db =
      (okListResponse "Users updated successfully"
        (orderByIdDescLimit1 (db.rows.map (fun u =>
          if u.user_id = uid then
            { u with first_name := form.first_name.getD "",
                     last_name := form.last_name.getD "",
                     email := form.email.getD "" }
          else u))),
       { db with rows := db.rows.map (fun u =>
          if u.user_id = uid then
            { u with first_name := form.first_name.getD "",
                     last_name := form.last_name.getD "",
                     email := form.email.getD "" }
          else u) }) := by
  simp only [update_user, runUserHandler, update_user_block, hparse, updateStmt,
    applyChangeset, Option.getD_some]
  rfl

/-- Running `delete_user` in the all-success environment on a parsable path:
the matching rows are removed and the response is the re-read of what is
left. -/
theorem delete_user_run (path : String) (db : Db) (uid : Nat)
    (hparse : Uuid.parse_str path = some uid) :
    delete_user { dispatchOk := true, poolOk := true, dieselErr := none }
        path db =
      (okListResponse "Users Deleted successfully"
        (orderByIdDescLimit1 (db.rows.filter (fun u => u.user_id != uid))),
       { db with rows := db.rows.filter (fun u => u.user_id != uid) }) := by
  simp only [delete_user, runUserHandler, delete_user_block, hparse, deleteStmt]
  rfl

/-- An update targeting a public identifier carried by no row of the list
rewrites nothing. -/
theorem map_if_no_match (uid : Nat) (f : User → User) (l : List User)
    (h : ∀ u ∈ l, u.user_id ≠ uid) :
    l.map (fun u => if u.user_id = uid then f u else u) = l := by
  induction l with
  | nil => rfl
  | cons a t ih =>
    simp only [List.map_cons]
    rw [if_neg (h a (by simp)), ih (fun u hu => h u (by simp [hu]))]

/-- A delete targeting a public identifier carried by no row of the list
removes nothing. -/
theorem filter_ne_no_match (uid : Nat) (l : List User)
    (h : ∀ u ∈ l, u.user_id ≠ uid) :
    l.filter (fun u => u.user_id != uid) = l := by
  apply List.filter_eq_self.mpr
  intro u hu
  simpa using h u hu

/-- C1: for every create request, `add_user` takes a fresh public identifier
(the value of `Uuid::new_v4()`, an input independent of the request body) and
a server-clock timestamp, inserts a row carrying them together with the
first name, last name and email of the request, and returns the result of
re-reading the table ordered by surrogate identifier descending with limit
one. -/
theorem add_user_inserts_and_rereads (env : Env) (form : NewUser)
    (freshUuid : Nat) (now : Int) (db : Db)
    (hd : env.dispatchOk = true) (hp : env.poolOk = true)
    (he : env.dieselErr = none) :
    add_user env form freshUuid now db =
      (okListResponse "Users added successfully"
        (orderByIdDescLimit1 (db.rows ++
          [{ id := db.next_id, user_id := freshUuid, first_name := form.first_name,
             last_name := form.last_name, email := form.email, created_at := now }])),
       { rows := db.rows ++
           [{ id := db.next_id, user_id := freshUuid, first_name := form.first_name,
              last_name := form.last_name, email := form.email, created_at := now }],
         next_id := db.next_id + 1 }) := by
  obtain ⟨d, p, er⟩ := env
  cases hd; cases hp; cases he
  exact add_user_run form freshUuid now db

/-- C1 witness: a concrete create request against the empty table. -/
theorem add_user_inserts_and_rereads_holds :
    add_user { dispatchOk := true, poolOk := true, dieselErr := none }
        { first_name := "Ada", last_name := "Lovelace", email := "ada@example.com" }
        5 0 { rows := [], next_id := 1 } =
      (okListResponse "Users added successfully"
        (orderByIdDescLimit1 ([] ++
          [{ id := 1, user_id := 5, first_name := "Ada", last_name := "Lovelace",
             email := "ada@example.com", created_at := 0 }])),
       { rows := [] ++
           [{ id := 1, user_id := 5, first_name := "Ada", last_name := "Lovelace",
              email := "ada@example.com", created_at := 0 }],
         next_id := 1 + 1 }) :=
  add_user_inserts_and_rereads
    { dispatchOk := true, poolOk := true, dieselErr := none }
    { first_name := "Ada", last_name := "Lovelace", email := "ada@example.com" }
    5 0 { rows := [], next_id := 1 } rfl rfl rfl

/-- C2: for every update request on a path that parses to a public
identifier, `update_user` overwrites all three mutable fields of every row
whose public identifier equals the parsed one, substituting the empty string
for any field omitted from the request body. -/
theorem update_user_writes_all_fields (env : Env) (path : String)
    (form : UpdateUser) (db : Db) (uid : Nat)
    (hparse : Uuid.parse_str path = some uid)
    (hd : env.dispatchOk = true) (hp : env.poolOk = true)
    (he : env.dieselErr = none) :
    (update_user env path form db).2.rows =
      db.rows.map (fun u =>
        if u.user_id = uid then
          { u with first_name := form.first_name.getD "",
                   last_name := form.last_name.getD "",
                   email := form.email.getD "" }
        else u) := by
  obtain ⟨d, p, er⟩ := env
  cases hd; cases hp; cases he
  rw [update_user_run path form db uid hparse]

/-- C2 witness: updating a two-row table by the identifier of its first row,
with only the first name supplied; the matched row ends with empty last name
and email, the other row is untouched. -/
theorem update_user_writes_all_fields_holds :
    (update_user { dispatchOk := true, poolOk := true, dieselErr := none }
        "00000000-0000-0000-0000-000000000007"
        { first_name := some "X", last_name := none, email := none }
        { rows := [{ id := 1, user_id := 7, first_name := "a", last_name := "b",
                     email := "c", created_at := 0 },
                   { id := 2, user_id := 8, first_name := "d", last_name := "e",
                     email := "f", created_at := 0 }],
          next_id := 3 }).2.rows =
      [{ id := 1, user_id := 7, first_name := "a", last_name := "b",
         email := "c", created_at := 0 },
       { id := 2, user_id := 8, first_name := "d", last_name := "e",
         email := "f", created_at := 0 }].map (fun u =>
        if u.user_id = 7 then
          { u with first_name := (some "X").getD "",
                   last_name := (none : Option String).getD "",
                   email := (none : Option String).getD "" }
        else u) :=
  update_user_writes_all_fields
    { dispatchOk := true, poolOk := true, dieselErr := none }
    "00000000-0000-0000-0000-000000000007"
    { first_name := some "X", last_name := none, email := none }
    { rows := [{ id := 1, user_id := 7, first_name := "a", last_name := "b",
                 email := "c", created_at := 0 },
               { id := 2, user_id := 8, first_name := "d", last_name := "e",
                 email := "f", created_at := 0 }],
      next_id := 3 } 7 (by decide) rfl rfl rfl

/-- C3: after the mutation, `update_user` and `delete_user` both return the
re-read of the globally greatest surrogate identifier (limit one) over the
resulting table, not the row acted upon; when no row carries the supplied
identifier the mutation changes nothing and each operation still returns the
most recent row of the unchanged table. -/
theorem update_delete_return_global_latest (env : Env) (path : String)
    (form : UpdateUser) (db : Db) (uid : Nat)
    (hparse : Uuid.parse_str path = some uid)
    (hd : env.dispatchOk = true) (hp : env.poolOk = true)
    (he : env.dieselErr = none) :
    ((update_user env path form db).1 =
        okListResponse "Users updated successfully"
          (orderByIdDescLimit1 (update_user env path form db).2.rows) ∧
     (delete_user env path db).1 =
        okListResponse "Users Deleted successfully"
          (orderByIdDescLimit1 (delete_user env path db).2.rows)) ∧
    ((∀ u ∈ db.rows, u.user_id ≠ uid) →
      update_user env path form db =
        (okListResponse "Users updated successfully" (orderByIdDescLimit1 db.rows), db) ∧
      delete_user env path db =
        (okListResponse "Users Deleted successfully" (orderByIdDescLimit1 db.rows), db)) := by
  obtain ⟨d, p, er⟩ := env
  cases hd; cases hp; cases he
  rw [update_user_run path form db uid hparse, delete_user_run path db uid hparse]
  refine ⟨⟨rfl, rfl⟩, fun h => ?_⟩
  rw [map_if_no_match uid _ db.rows h, filter_ne_no_match uid db.rows h]
  exact ⟨rfl, rfl⟩

/-- C3 witness: a table holding only the row with public identifier 9,
updated and deleted through the valid but unmatched identifier 7; the
mutation is a no-op and both operations return the most recent row overall,
namely the row with identifier 9. -/
theorem update_delete_return_global_latest_holds :
    update_user { dispatchOk := true, poolOk := true, dieselErr := none }
        "00000000-0000-0000-0000-000000000007"
        { first_name := none, last_name := none, email := none }
        { rows := [{ id := 1, user_id := 9, first_name := "a", last_name := "b",
                     email := "c", created_at := 0 }], next_id := 2 } =
      (okListResponse "Users updated successfully"
        (orderByIdDescLimit1
          [{ id := 1, user_id := 9, first_name := "a", last_name := "b",
             email := "c", created_at := 0 }]),
       { rows := [{ id := 1, user_id := 9, first_name := "a", last_name := "b",
                    email := "c", created_at := 0 }], next_id := 2 }) ∧
    delete_user { dispatchOk := true, poolOk := true, dieselErr := none }
        "00000000-0000-0000-0000-000000000007"
        { rows := [{ id := 1, user_id := 9, first_name := "a", last_name := "b",
                     email := "c", created_at := 0 }], next_id := 2 } =
      (okListResponse "Users Deleted successfully"
        (orderByIdDescLimit1
          [{ id := 1, user_id := 9, first_name := "a", last_name := "b",
             email := "c", created_at := 0 }]),
       { rows := [{ id := 1, user_id := 9, first_name := "a", last_name := "b",
                    email := "c", created_at := 0 }], next_id := 2 }) :=
  (update_delete_return_global_latest
    { dispatchOk := true, poolOk := true, dieselErr := none }
    "00000000-0000-0000-0000-000000000007"
    { first_name := none, last_name := none, email := none }
    { rows := [{ id := 1, user_id := 9, first_name := "a", last_name := "b",
                 email := "c", created_at := 0 }], next_id := 2 }
    7 (by decide) rfl rfl rfl).2 (by decide)

/-- C4 counterexample: the malformed path identifier "not-a-uuid" does not
crash the request: the `expect` panic is caught at the `web::block` boundary
and both mutating handlers answer with an error response, the generic 500 of
their block-error mapping. -/
theorem invalid_identifier_yields_500_response :
    update_user { dispatchOk := true, poolOk := true, dieselErr := none }
        "not-a-uuid" { first_name := none, last_name := none, email := none }
        { rows := [], next_id := 1 } =
      (.response { status := 500, body := .jsonString "Error updating user" },
       { rows := [], next_id := 1 }) ∧
    delete_user { dispatchOk := true, poolOk := true, dieselErr := none }
        "not-a-uuid" { rows := [], next_id := 1 } =
      (.response { status := 500, body := .jsonString "Error deleting user" },
       { rows := [], next_id := 1 }) :=
  ⟨rfl, rfl⟩

/-- C4 (amended): when the path identifier of `update_user` or `delete_user`
fails to parse as a UUID, the `expect` panic inside the worker closure is
caught at the `web::block` boundary and mapped by the handler to the generic
500 response — "Error updating user" for the update, "Error deleting user"
for the delete — never a crash of the request and never a 400; the table is
untouched. -/
theorem invalid_identifier_maps_to_generic_500 (env : Env) (path : String)
    (form : UpdateUser) (db : Db)
    (hd : env.dispatchOk = true)
    (hparse : Uuid.parse_str path = none) :
    update_user env path form db =
      (.response { status := 500, body := .jsonString "Error updating user" }, db) ∧
    delete_user env path db =
      (.response { status := 500, body := .jsonString "Error deleting user" }, db) ∧
    (∀ m, (update_user env path form db).1 ≠ RequestOutcome.crash m) ∧
    (∀ m, (delete_user env path db).1 ≠ RequestOutcome.crash m) := by
  obtain ⟨d, p, er⟩ := env
  cases hd
  have hu : update_user { dispatchOk := true, poolOk := p, dieselErr := er }
      path form db =
      (.response { status := 500, body := .jsonString "Error updating user" }, db) := by
    simp [update_user, runUserHandler, update_user_block, hparse,
      UserError.error_response, UserError.fmt]
  have hdel : delete_user { dispatchOk := true, poolOk := p, dieselErr := er }
      path db =
      (.response { status := 500, body := .jsonString "Error deleting user" }, db) := by
    simp [delete_user, runUserHandler, delete_user_block, hparse,
      UserError.error_response, UserError.fmt]
  refine ⟨hu, hdel, ?_, ?_⟩
  · intro m
    rw [hu]
    simp
  · intro m
    rw [hdel]
    simp

/-- C4 (amended) witness: the malformed identifier at a concrete request. -/
theorem invalid_identifier_maps_to_generic_500_holds :
    update_user { dispatchOk := true, poolOk := true, dieselErr := none }
        "zzz" { first_name := none, last_name := none, email := none }
        { rows := [], next_id := 1 } =
      (.response { status := 500, body := .jsonString "Error updating user" },
       { rows := [], next_id := 1 }) ∧
    delete_user { dispatchOk := true, poolOk := true, dieselErr := none }
        "zzz" { rows := [], next_id := 1 } =
      (.response { status := 500, body := .jsonString "Error deleting user" },
       { rows := [], next_id := 1 }) :=
  have h := invalid_identifier_maps_to_generic_500
    { dispatchOk := true, poolOk := true, dieselErr := none }
    "zzz" { first_name := none, last_name := none, email := none }
    { rows := [], next_id := 1 } rfl (by decide)
  ⟨h.1, h.2.1⟩

/-- C5 counterexample: a worker-dispatch failure on `get_users` is mapped to
`UserError::NotFound` and surfaces as a 404 response, not a 500-class one,
refuting the claim that such failures always yield a 500-class response. -/
theorem dispatch_failure_404_on_get_users :
    (get_users { dispatchOk := false, poolOk := true, dieselErr := none }
        { rows := [], next_id := 1 }).1 =
      .response { status := 404, body := .jsonString "User not found" } ∧
    404 < 500 :=
  ⟨rfl, by decide⟩

/-- C5 (amended): a failure to acquire a pool connection (an `expect` panic
caught at the `web::block` boundary) and a failure to schedule the blocking
worker alike abort `add_user`, `update_user` and `delete_user` with the
generic 500 response, but abort `get_users` with a 404 response carrying the
fixed not-found message. -/
theorem failure_responses_by_operation (db : Db) (form : NewUser)
    (uform : UpdateUser) (path : String) (uid freshUuid : Nat) (now : Int)
    (pOk : Bool) (dErr : Option String)
    (hparse : Uuid.parse_str path = some uid) :
    ((add_user { dispatchOk := false, poolOk := pOk, dieselErr := dErr }
        form freshUuid now db).1 =
      .response { status := 500, body := .jsonString "Error adding user" } ∧
     (update_user { dispatchOk := false, poolOk := pOk, dieselErr := dErr }
        path uform db).1 =
      .response { status := 500, body := .jsonString "Error updating user" } ∧
     (delete_user { dispatchOk := false, poolOk := pOk, dieselErr := dErr }
        path db).1 =
      .response { status := 500, body := .jsonString "Error deleting user" } ∧
     (get_users { dispatchOk := false, poolOk := pOk, dieselErr := dErr } db).1 =
      .response { status := 404, body := .jsonString "User not found" }) ∧
    ((add_user { dispatchOk := true, poolOk := false, dieselErr := dErr }
        form freshUuid now db).1 =
      .response { status := 500, body := .jsonString "Error adding user" } ∧
     (update_user { dispatchOk := true, poolOk := false, dieselErr := dErr }
        path uform db).1 =
      .response { status := 500, body := .jsonString "Error updating user" } ∧
     (delete_user { dispatchOk := true, poolOk := false, dieselErr := dErr }
        path db).1 =
      .response { status := 500, body := .jsonString "Error deleting user" } ∧
     (get_users { dispatchOk := true, poolOk := false, dieselErr := dErr } db).1 =
      .response { status := 404, body := .jsonString "User not found" }) := by
  refine ⟨⟨rfl, rfl, rfl, rfl⟩, ⟨rfl, ?_, ?_, rfl⟩⟩ <;>
    simp [update_user, delete_user, runUserHandler, update_user_block,
      delete_user_block, hparse, UserError.error_response, UserError.fmt]

/-- C5 (amended) witness: the amended failure taxonomy at a concrete
request. -/
theorem failure_responses_by_operation_holds :
    ((add_user { dispatchOk := false, poolOk := true, dieselErr := none }
        { first_name := "a", last_name := "b", email := "c" } 5 0
        { rows := [], next_id := 1 }).1 =
      .response { status := 500, body := .jsonString "Error adding user" } ∧
     (update_user { dispatchOk := false, poolOk := true, dieselErr := none }
        "00000000-0000-0000-0000-000000000007"
        { first_name := none, last_name := none, email := none }
        { rows := [], next_id := 1 }).1 =
      .response { status := 500, body := .jsonString "Error updating user" } ∧
     (delete_user { dispatchOk := false, poolOk := true, dieselErr := none }
        "00000000-0000-0000-0000-000000000007" { rows := [], next_id := 1 }).1 =
      .response { status := 500, body := .jsonString "Error deleting user" } ∧
     (get_users { dispatchOk := false, poolOk := true, dieselErr := none }
        { rows := [], next_id := 1 }).1 =
      .response { status := 404, body := .jsonString "User not found" }) ∧
    ((add_user { dispatchOk := true, poolOk := false, dieselErr := none }
        { first_name := "a", last_name := "b", email := "c" } 5 0
        { rows := [], next_id := 1 }).1 =
      .response { status := 500, body := .jsonString "Error adding user" } ∧
     (update_user { dispatchOk := true, poolOk := false, dieselErr := none }
        "00000000-0000-0000-0000-000000000007"
        { first_name := none, last_name := none, email := none }
        { rows := [], next_id := 1 }).1 =
      .response { status := 500, body := .jsonString "Error updating user" } ∧
     (delete_user { dispatchOk := true, poolOk := false, dieselErr := none }
        "00000000-0000-0000-0000-000000000007" { rows := [], next_id := 1 }).1 =
      .response { status := 500, body := .jsonString "Error deleting user" } ∧
     (get_users { dispatchOk := true, poolOk := false, dieselErr := none }
        { rows := [], next_id := 1 }).1 =
      .response { status := 404, body := .jsonString "User not found" }) :=
  failure_responses_by_operation { rows := [], next_id := 1 }
    { first_name := "a", last_name := "b", email := "c" }
    { first_name := none, last_name := none, email := none }
    "00000000-0000-0000-0000-000000000007" 7 5 0 true none (by decide)

/-- C6: the error translator sends `NotFound` to a 404 with the fixed
not-found message, and a storage-layer failure raised during list, insert,
update or delete to a 500 whose body is the display text of the wrapped
diesel error. -/
theorem error_translator_maps_failures (e : String) (db : Db) (form : NewUser)
    (uform : UpdateUser) (path : String) (uid freshUuid : Nat) (now : Int)
    (hparse : Uuid.parse_str path = some uid) :
    UserError.NotFound.error_response =
      { status := 404, body := .jsonString "User not found" } ∧
    (UserError.DieselError e).error_response =
      { status := 500, body := .jsonString ("Diesel error: " ++ e) } ∧
    (get_users { dispatchOk := true, poolOk := true, dieselErr := some e } db).1 =
      .response { status := 500, body := .jsonString ("Diesel error: " ++ e) } ∧
    (add_user { dispatchOk := true, poolOk := true, dieselErr := some e }
        form freshUuid now db).1 =
      .response { status := 500, body := .jsonString ("Diesel error: " ++ e) } ∧
    (update_user { dispatchOk := true, poolOk := true, dieselErr := some e }
        path uform db).1 =
      .response { status := 500, body := .jsonString ("Diesel error: " ++ e) } ∧
    (delete_user { dispatchOk := true, poolOk := true, dieselErr := some e }
        path db).1 =
      .response { status := 500, body := .jsonString ("Diesel error: " ++ e) } := by
  refine ⟨rfl, rfl, rfl, rfl, ?_, ?_⟩ <;>
    simp [update_user, delete_user, runUserHandler, update_user_block,
      delete_user_block, hparse, UserError.error_response, UserError.fmt]

/-- C6 witness: a concrete diesel failure text and a concrete request. -/
theorem error_translator_maps_failures_holds :
    UserError.NotFound.error_response =
      { status := 404, body := .jsonString "User not found" } ∧
    (UserError.DieselError "broken pipe").error_response =
      { status := 500, body := .jsonString ("Diesel error: " ++ "broken pipe") } ∧
    (get_users { dispatchOk := true, poolOk := true, dieselErr := some "broken pipe" }
        { rows := [], next_id := 1 }).1 =
      .response { status := 500, body := .jsonString ("Diesel error: " ++ "broken pipe") } ∧
    (add_user { dispatchOk := true, poolOk := true, dieselErr := some "broken pipe" }
        { first_name := "a", last_name := "b", email := "c" } 5 0
        { rows := [], next_id := 1 }).1 =
      .response { status := 500, body := .jsonString ("Diesel error: " ++ "broken pipe") } ∧
    (update_user { dispatchOk := true, poolOk := true, dieselErr := some "broken pipe" }
        "00000000-0000-0000-0000-000000000007"
        { first_name := none, last_name := none, email := none }
        { rows := [], next_id := 1 }).1 =
      .response { status := 500, body := .jsonString ("Diesel error: " ++ "broken pipe") } ∧
    (delete_user { dispatchOk := true, poolOk := true, dieselErr := some "broken pipe" }
        "00000000-0000-0000-0000-000000000007" { rows := [], next_id := 1 }).1 =
      .response { status := 500, body := .jsonString ("Diesel error: " ++ "broken pipe") } :=
  error_translator_maps_failures "broken pipe" { rows := [], next_id := 1 }
    { first_name := "a", last_name := "b", email := "c" }
    { first_name := none, last_name := none, email := none }
    "00000000-0000-0000-0000-000000000007" 7 5 0 (by decide)

/-- C7: listing an empty table, and the post-mutation re-read of
`update_user` and `delete_user` when the table is or becomes empty, succeed
with the OK envelope and an empty payload instead of an error; the re-read
of `add_user` never sees an empty table, since the insert has just grown
it. -/
theorem empty_table_reads_ok (env : Env) (path : String) (uform : UpdateUser)
    (db : Db) (uid : Nat)
    (hd : env.dispatchOk = true) (hp : env.poolOk = true)
    (he : env.dieselErr = none)
    (hparse : Uuid.parse_str path = some uid) :
    (db.rows = [] →
      (get_users env db).1 = okListResponse "Users Fetched successfully" []) ∧
    (db.rows = [] →
      (update_user env path uform db).1 =
        okListResponse "Users updated successfully" []) ∧
    ((deleteStmt uid db).rows = [] →
      (delete_user env path db).1 =
        okListResponse "Users Deleted successfully" []) ∧
    (∀ form freshUuid now,
      (add_user env form freshUuid now db).2.rows ≠ []) := by
  obtain ⟨d, p, er⟩ := env
  cases hd; cases hp; cases he
  refine ⟨fun h => ?_, fun h => ?_, fun h => ?_, fun form freshUuid now => ?_⟩
  · rw [get_users_run, h]
  · rw [update_user_run path uform db uid hparse, h]
    rfl
  · simp only [deleteStmt] at h
    rw [delete_user_run path db uid hparse, h]
    rfl
  · rw [add_user_run]
    simp

/-- C7 witness: the empty table, read and mutated through the valid
identifier 7. -/
theorem empty_table_reads_ok_holds :
    (get_users { dispatchOk := true, poolOk := true, dieselErr := none }
        { rows := [], next_id := 1 }).1 =
      okListResponse "Users Fetched successfully" [] ∧
    (update_user { dispatchOk := true, poolOk := true, dieselErr := none }
        "00000000-0000-0000-0000-000000000007"
        { first_name := none, last_name := none, email := none }
        { rows := [], next_id := 1 }).1 =
      okListResponse "Users updated successfully" [] ∧
    (delete_user { dispatchOk := true, poolOk := true, dieselErr := none }
        "00000000-0000-0000-0000-000000000007" { rows := [], next_id := 1 }).1 =
      okListResponse "Users Deleted successfully" [] ∧
    (add_user { dispatchOk := true, poolOk := true, dieselErr := none }
        { first_name := "a", last_name := "b", email := "c" } 5 0
        { rows := [], next_id := 1 }).2.rows ≠ [] :=
  have h := empty_table_reads_ok
    { dispatchOk := true, poolOk := true, dieselErr := none }
    "00000000-0000-0000-0000-000000000007"
    { first_name := none, last_name := none, email := none }
    { rows := [], next_id := 1 } 7 rfl rfl rfl (by decide)
  ⟨h.1 rfl, h.2.1 rfl, h.2.2.1 rfl,
   h.2.2.2 { first_name := "a", last_name := "b", email := "c" } 5 0⟩

/-- C8: the update operation mutates only the first name, last name and
email of matched rows; the surrogate identifier, public identifier and
creation timestamp of every row, and the serial counter, are unchanged. -/
theorem update_user_preserves_keys (env : Env) (path : String)
    (form : UpdateUser) (db : Db) (uid : Nat)
    (hparse : Uuid.parse_str path = some uid)
    (hd : env.dispatchOk = true) (hp : env.poolOk = true)
    (he : env.dieselErr = none) :
    (update_user env path form db).2.rows.map rowKey = db.rows.map rowKey ∧
    (update_user env path form db).2.next_id = db.next_id := by
  obtain ⟨d, p, er⟩ := env
  cases hd; cases hp; cases he
  rw [update_user_run path form db uid hparse]
  refine ⟨?_, rfl⟩
  have hmap : ∀ l : List User,
      (l.map (fun u =>
        if u.user_id = uid then
          { u with first_name := form.first_name.getD "",
                   last_name := form.last_name.getD "",
                   email := form.email.getD "" }
        else u)).map rowKey = l.map rowKey := by
    intro l
    induction l with
    | nil => rfl
    | cons a t ih =>
      simp only [List.map_cons, ih]
      by_cases h : a.user_id = uid <;> simp [rowKey, h]
  exact hmap db.rows

/-- C8 witness: updating a one-row table leaves its surrogate key, public
identifier, timestamp and the serial counter intact. -/
theorem update_user_preserves_keys_holds :
    (update_user { dispatchOk := true, poolOk := true, dieselErr := none }
        "00000000-0000-0000-0000-000000000007"
        { first_name := some "X", last_name := some "Y", email := some "Z" }
        { rows := [{ id := 1, user_id := 7, first_name := "a", last_name := "b",
                     email := "c", created_at := 3 }],
          next_id := 2 }).2.rows.map rowKey =
      [{ id := 1, user_id := 7, first_name := "a", last_name := "b",
         email := "c", created_at := 3 }].map rowKey ∧
    (update_user { dispatchOk := true, poolOk := true, dieselErr := none }
        "00000000-0000-0000-0000-000000000007"
        { first_name := some "X", last_name := some "Y", email := some "Z" }
        { rows := [{ id := 1, user_id := 7, first_name := "a", last_name := "b",
                     email := "c", created_at := 3 }],
          next_id := 2 }).2.next_id = 2 :=
  update_user_preserves_keys
    { dispatchOk := true, poolOk := true, dieselErr := none }
    "00000000-0000-0000-0000-000000000007"
    { first_name := some "X", last_name := some "Y", email := some "Z" }
    { rows := [{ id := 1, user_id := 7, first_name := "a", last_name := "b",
                 email := "c", created_at := 3 }],
      next_id := 2 } 7 (by decide) rfl rfl rfl

/-- C9: every successful response is the envelope with status "OK", the
fixed per-operation message and the payload slot, and the liveness check
returns exactly the envelope with status "OK", message "Working" and absent
data. -/
theorem success_envelopes (db : Db) (form : NewUser) (uform : UpdateUser)
    (path : String) (uid freshUuid : Nat) (now : Int)
    (hparse : Uuid.parse_str path = some uid) :
    health_checker =
      .response
        { status := 200,
          body := .jsonEnvelope
            { status := "OK", message := "Working", data := none } } ∧
    (get_users { dispatchOk := true, poolOk := true, dieselErr := none } db).1 =
      okListResponse "Users Fetched successfully" db.rows ∧
    (add_user { dispatchOk := true, poolOk := true, dieselErr := none }
        form freshUuid now db).1 =
      okListResponse "Users added successfully"
        (orderByIdDescLimit1
          (add_user { dispatchOk := true, poolOk := true, dieselErr := none }
            form freshUuid now db).2.rows) ∧
    (update_user { dispatchOk := true, poolOk := true, dieselErr := none }
        path uform db).1 =
      okListResponse "Users updated successfully"
        (orderByIdDescLimit1
          (update_user { dispatchOk := true, poolOk := true, dieselErr := none }
            path uform db).2.rows) ∧
    (delete_user { dispatchOk := true, poolOk := true, dieselErr := none }
        path db).1 =
      okListResponse "Users Deleted successfully"
        (orderByIdDescLimit1
          (delete_user { dispatchOk := true, poolOk := true, dieselErr := none }
            path db).2.rows) := by
  rw [update_user_run path uform db uid hparse, delete_user_run path db uid hparse]
  exact ⟨rfl, rfl, rfl, rfl, rfl⟩

/-- C9 witness: the envelopes at a concrete one-row table. -/
theorem success_envelopes_holds :
    health_checker =
      .response
        { status := 200,
          body := .jsonEnvelope
            { status := "OK", message := "Working", data := none } } ∧
    (get_users { dispatchOk := true, poolOk := true, dieselErr := none }
        { rows := [{ id := 1, user_id := 9, first_name := "a", last_name := "b",
                     email := "c", created_at := 0 }], next_id := 2 }).1 =
      okListResponse "Users Fetched successfully"
        [{ id := 1, user_id := 9, first_name := "a", last_name := "b",
           email := "c", created_at := 0 }] ∧
    (add_user { dispatchOk := true, poolOk := true, dieselErr := none }
        { first_name := "d", last_name := "e", email := "f" } 5 0
        { rows := [{ id := 1, user_id := 9, first_name := "a", last_name := "b",
                     email := "c", created_at := 0 }], next_id := 2 }).1 =
      okListResponse "Users added successfully"
        (orderByIdDescLimit1
          (add_user { dispatchOk := true, poolOk := true, dieselErr := none }
            { first_name := "d", last_name := "e", email := "f" } 5 0
            { rows := [{ id := 1, user_id := 9, first_name := "a", last_name := "b",
                         email := "c", created_at := 0 }], next_id := 2 }).2.rows) ∧
    (update_user { dispatchOk := true, poolOk := true, dieselErr := none }
        "00000000-0000-0000-0000-000000000007"
        { first_name := none, last_name := none, email := none }
        { rows := [{ id := 1, user_id := 9, first_name := "a", last_name := "b",
                     email := "c", created_at := 0 }], next_id := 2 }).1 =
      okListResponse "Users updated successfully"
        (orderByIdDescLimit1
          (update_user { dispatchOk := true, poolOk := true, dieselErr := none }
            "00000000-0000-0000-0000-000000000007"
            { first_name := none, last_name := none, email := none }
            { rows := [{ id := 1, user_id := 9, first_name := "a", last_name := "b",
                         email := "c", created_at := 0 }], next_id := 2 }).2.rows) ∧
    (delete_user { dispatchOk := true, poolOk := true, dieselErr := none }
        "00000000-0000-0000-0000-000000000007"
        { rows := [{ id := 1, user_id := 9, first_name := "a", last_name := "b",
                     email := "c", created_at := 0 }], next_id := 2 }).1 =
      okListResponse "Users Deleted successfully"
        (orderByIdDescLimit1
          (delete_user { dispatchOk := true, poolOk := true, dieselErr := none }
            "00000000-0000-0000-0000-000000000007"
            { rows := [{ id := 1, user_id := 9, first_name := "a", last_name := "b",
                         email := "c", created_at := 0 }], next_id := 2 }).2.rows) :=
  success_envelopes
    { rows := [{ id := 1, user_id := 9, first_name := "a", last_name := "b",
                 email := "c", created_at := 0 }], next_id := 2 }
    { first_name := "d", last_name := "e", email := "f" }
    { first_name := none, last_name := none, email := none }
    "00000000-0000-0000-0000-000000000007" 7 5 0 (by decide)

/-- C10: every successful `add_user`, `update_user` and `delete_user`
response carries a present payload that is the limit-one re-read, hence of
length at most one, and the payload is empty exactly when the table is empty
after the mutation. -/
theorem mutation_payload_present_at_most_one (db : Db) (form : NewUser)
    (uform : UpdateUser) (path : String) (uid freshUuid : Nat) (now : Int)
    (hparse : Uuid.parse_str path = some uid) :
    ((add_user { dispatchOk := true, poolOk := true, dieselErr := none }
        form freshUuid now db).1 =
      okListResponse "Users added successfully"
        (orderByIdDescLimit1
          (add_user { dispatchOk := true, poolOk := true, dieselErr := none }
            form freshUuid now db).2.rows) ∧
     (orderByIdDescLimit1
        (add_user { dispatchOk := true, poolOk := true, dieselErr := none }
          form freshUuid now db).2.rows).length ≤ 1 ∧
     (orderByIdDescLimit1
        (add_user { dispatchOk := true, poolOk := true, dieselErr := none }
          form freshUuid now db).2.rows = [] ↔
      (add_user { dispatchOk := true, poolOk := true, dieselErr := none }
        form freshUuid now db).2.rows = [])) ∧
    ((update_user { dispatchOk := true, poolOk := true, dieselErr := none }
        path uform db).1 =
      okListResponse "Users updated successfully"
        (orderByIdDescLimit1
          (update_user { dispatchOk := true, poolOk := true, dieselErr := none }
            path uform db).2.rows) ∧
     (orderByIdDescLimit1
        (update_user { dispatchOk := true, poolOk := true, dieselErr := none }
          path uform db).2.rows).length ≤ 1 ∧
     (orderByIdDescLimit1
        (update_user { dispatchOk := true, poolOk := true, dieselErr := none }
          path uform db).2.rows = [] ↔
      (update_user { dispatchOk := true, poolOk := true, dieselErr := none }
        path uform db).2.rows = [])) ∧
    ((delete_user { dispatchOk := true, poolOk := true, dieselErr := none }
        path db).1 =
      okListResponse "Users Deleted successfully"
        (orderByIdDescLimit1
          (delete_user { dispatchOk := true, poolOk := true, dieselErr := none }
            path db).2.rows) ∧
     (orderByIdDescLimit1
        (delete_user { dispatchOk := true, poolOk := true, dieselErr := none }
          path db).2.rows).length ≤ 1 ∧
     (orderByIdDescLimit1
        (delete_user { dispatchOk := true, poolOk := true, dieselErr := none }
          path db).2.rows = [] ↔
      (delete_user { dispatchOk := true, poolOk := true, dieselErr := none }
        path db).2.rows = [])) := by
  rw [update_user_run path uform db uid hparse, delete_user_run path db uid hparse]
  exact ⟨⟨rfl, orderByIdDescLimit1_length _, orderByIdDescLimit1_eq_nil _⟩,
         ⟨rfl, orderByIdDescLimit1_length _, orderByIdDescLimit1_eq_nil _⟩,
         ⟨rfl, orderByIdDescLimit1_length _, orderByIdDescLimit1_eq_nil _⟩⟩

/-- C10 witness: the payload bounds at a concrete table and request. -/
theorem mutation_payload_present_at_most_one_holds :
    ((add_user { dispatchOk := true, poolOk := true, dieselErr := none }
        { first_name := "d", last_name := "e", email := "f" } 5 0
        { rows := [], next_id := 1 }).1 =
      okListResponse "Users added successfully"
        (orderByIdDescLimit1
          (add_user { dispatchOk := true, poolOk := true, dieselErr := none }
            { first_name := "d", last_name := "e", email := "f" } 5 0
            { rows := [], next_id := 1 }).2.rows) ∧
     (orderByIdDescLimit1
        (add_user { dispatchOk := true, poolOk := true, dieselErr := none }
          { first_name := "d", last_name := "e", email := "f" } 5 0
          { rows := [], next_id := 1 }).2.rows).length ≤ 1 ∧
     (orderByIdDescLimit1
        (add_user { dispatchOk := true, poolOk := true, dieselErr := none }
          { first_name := "d", last_name := "e", email := "f" } 5 0
          { rows := [], next_id := 1 }).2.rows = [] ↔
      (add_user { dispatchOk := true, poolOk := true, dieselErr := none }
        { first_name := "d", last_name := "e", email := "f" } 5 0
        { rows := [], next_id := 1 }).2.rows = [])) ∧
    ((update_user { dispatchOk := true, poolOk := true, dieselErr := none }
        "00000000-0000-0000-0000-000000000007"
        { first_name := none, last_name := none, email := none }
        { rows := [], next_id := 1 }).1 =
      okListResponse "Users updated successfully"
        (orderByIdDescLimit1
          (update_user { dispatchOk := true, poolOk := true, dieselErr := none }
            "00000000-0000-0000-0000-000000000007"
            { first_name := none, last_name := none, email := none }
            { rows := [], next_id := 1 }).2.rows) ∧
     (orderByIdDescLimit1
        (update_user { dispatchOk := true, poolOk := true, dieselErr := none }
          "00000000-0000-0000-0000-000000000007"
          { first_name := none, last_name := none, email := none }
          { rows := [], next_id := 1 }).2.rows).length ≤ 1 ∧
     (orderByIdDescLimit1
        (update_user { dispatchOk := true, poolOk := true, dieselErr := none }
          "00000000-0000-0000-0000-000000000007"
          { first_name := none, last_name := none, email := none }
          { rows := [], next_id := 1 }).2.rows = [] ↔
      (update_user { dispatchOk := true, poolOk := true, dieselErr := none }
        "00000000-0000-0000-0000-000000000007"
        { first_name := none, last_name := none, email := none }
        { rows := [], next_id := 1 }).2.rows = [])) ∧
    ((delete_user { dispatchOk := true, poolOk := true, dieselErr := none }
        "00000000-0000-0000-0000-000000000007" { rows := [], next_id := 1 }).1 =
      okListResponse "Users Deleted successfully"
        (orderByIdDescLimit1
          (delete_user { dispatchOk := true, poolOk := true, dieselErr := none }
            "00000000-0000-0000-0000-000000000007"
            { rows := [], next_id := 1 }).2.rows) ∧
     (orderByIdDescLimit1
        (delete_user { dispatchOk := true, poolOk := true, dieselErr := none }
          "00000000-0000-0000-0000-000000000007"
          { rows := [], next_id := 1 }).2.rows).length ≤ 1 ∧
     (orderByIdDescLimit1
        (delete_user { dispatchOk := true, poolOk := true, dieselErr := none }
          "00000000-0000-0000-0000-000000000007"
          { rows := [], next_id := 1 }).2.rows = [] ↔
      (delete_user { dispatchOk := true, poolOk := true, dieselErr := none }
        "00000000-0000-0000-0000-000000000007"
        { rows := [], next_id := 1 }).2.rows = [])) :=
  mutation_payload_present_at_most_one { rows := [], next_id := 1 }
    { first_name := "d", last_name := "e", email := "f" }
    { first_name := none, last_name := none, email := none }
    "00000000-0000-0000-0000-000000000007" 7 5 0 (by decide)

end ActixDieselCrud
